import Mathlib

/-!
Shallow embedding of the AniList Media Ranker (`src/al_ranked/__main__.py`)
and proofs about its query builder, ranking collector and CSV exporter.

Decoded JSON responses are modelled by the inductive type `Json`; the
transport boundary (`post_graphql_request`) is modelled by a function
`String → RequestData → Option Json` where `none` stands for the `None`
the Python function returns after catching an `HTTPError`/`ConnectionError`.
Python dicts keyed by media id are modelled as association lists with
Python's assignment semantics (replace in place, else append), and runtime
lookup failures (`KeyError`/`TypeError`) are modelled by `Except String`.
-/

inductive Json where
  | num (n : Int)
  | str (s : String)
  | obj (fields : List (String × Json))
  | arr (elems : List Json)

mutual

def Json.decEq : (a b : Json) → Decidable (a = b)
  | .num x, .num y =>
    match Int.instDecidableEq x y with
    | .isTrue h => .isTrue (h ▸ rfl)
    | .isFalse h => .isFalse (fun hh => h (Json.num.inj hh))
  | .num _, .str _ => .isFalse (fun hh => Json.noConfusion hh)
  | .num _, .obj _ => .isFalse (fun hh => Json.noConfusion hh)
  | .num _, .arr _ => .isFalse (fun hh => Json.noConfusion hh)
  | .str _, .num _ => .isFalse (fun hh => Json.noConfusion hh)
  | .str x, .str y =>
    match String.decEq x y with
    | .isTrue h => .isTrue (h ▸ rfl)
    | .isFalse h => .isFalse (fun hh => h (Json.str.inj hh))
  | .str _, .obj _ => .isFalse (fun hh => Json.noConfusion hh)
  | .str _, .arr _ => .isFalse (fun hh => Json.noConfusion hh)
  | .obj _, .num _ => .isFalse (fun hh => Json.noConfusion hh)
  | .obj _, .str _ => .isFalse (fun hh => Json.noConfusion hh)
  | .obj xs, .obj ys =>
    match Json.decEqFields xs ys with
    | .isTrue h => .isTrue (h ▸ rfl)
    | .isFalse h => .isFalse (fun hh => h (Json.obj.inj hh))
  | .obj _, .arr _ => .isFalse (fun hh => Json.noConfusion hh)
  | .arr _, .num _ => .isFalse (fun hh => Json.noConfusion hh)
  | .arr _, .str _ => .isFalse (fun hh => Json.noConfusion hh)
  | .arr _, .obj _ => .isFalse (fun hh => Json.noConfusion hh)
  | .arr xs, .arr ys =>
    match Json.decEqElems xs ys with
    | .isTrue h => .isTrue (h ▸ rfl)
    | .isFalse h => .isFalse (fun hh => h (Json.arr.inj hh))

def Json.decEqFields : (a b : List (String × Json)) → Decidable (a = b)
  | [], [] => .isTrue rfl
  | [], _ :: _ => .isFalse (fun hh => List.noConfusion hh)
  | _ :: _, [] => .isFalse (fun hh => List.noConfusion hh)
  | (k1, v1) :: r1, (k2, v2) :: r2 =>
    match String.decEq k1 k2 with
    | .isFalse h => .isFalse (fun hh => by
        injection hh with h1 h2
        exact h (congrArg Prod.fst h1))
    | .isTrue h1 =>
      match Json.decEq v1 v2 with
      | .isFalse h => .isFalse (fun hh => by
          injection hh with hp _
          exact h (congrArg Prod.snd hp))
      | .isTrue h2 =>
        match Json.decEqFields r1 r2 with
        | .isTrue h3 => .isTrue (by rw [h1, h2, h3])
        | .isFalse h => .isFalse (fun hh => by
            injection hh with _ ht
            exact h ht)

def Json.decEqElems : (a b : List Json) → Decidable (a = b)
  | [], [] => .isTrue rfl
  | [], _ :: _ => .isFalse (fun hh => List.noConfusion hh)
  | _ :: _, [] => .isFalse (fun hh => List.noConfusion hh)
  | v1 :: r1, v2 :: r2 =>
    match Json.decEq v1 v2 with
    | .isFalse h => .isFalse (fun hh => by
        injection hh with hv _
        exact h hv)
    | .isTrue h1 =>
      match Json.decEqElems r1 r2 with
      | .isTrue h2 => .isTrue (by rw [h1, h2])
      | .isFalse h => .isFalse (fun hh => by
          injection hh with _ ht
          exact h ht)

end

instance : DecidableEq Json := Json.decEq

/-- The `Media` TypedDict of `__main__.py`: `id` and `title` hold the raw
response values (`item["id"]` and `item["title"]["romaji"]`), `rank` is the
1-based rank assigned at insertion. -/
structure Media where
  id : Json
  title : Json
  rank : Nat
deriving DecidableEq

/-- Module constant `BASE_API_URL`. -/
def BASE_API_URL : String := "https://graphql.anilist.co"

/-- Module constant `POPULARITY_SORT`. -/
def POPULARITY_SORT : String := "POPULARITY_DESC"

/-- Module constant `SCORE_SORT`. -/
def SCORE_SORT : String := "SCORE_DESC"

/-- Python `sep.join(parts)`. -/
def strJoin (sep : String) : List String → String
  | [] => ""
  | [a] => a
  | a :: b :: rest => a ++ sep ++ strJoin sep (b :: rest)

/-- The ordered `query_parts` dict built at the top of `build_query`: the
genre value is quoted when `genre` is truthy (`f'"{genre}"' if genre else
None`), every other value is passed through unchanged. -/
def query_parts (media_type : String) (media_status country genre : Option String) :
    List (String × Option String) :=
  [("type", some media_type),
   ("status", media_status),
   ("countryOfOrigin", country),
   ("genre", match genre with
             | some g => if g = "" then none else some ("\x22" ++ g ++ "\x22")
             | none => none)]

/-- The list comprehension `[f"{key}: {value}" for key, value in
query_parts.items() if value is not None]`. -/
def emitted_filters (media_type : String) (media_status country genre : Option String) :
    List String :=
  (query_parts media_type media_status country genre).filterMap
    (fun kv => kv.2.map (fun v => kv.1 ++ ": " ++ v))

/-- `query_filters = ", ".join(...)` in `build_query`. -/
def query_filters (media_type : String) (media_status country genre : Option String) :
    String :=
  strJoin ", " (emitted_filters media_type media_status country genre)

/-- The query template text before the interpolated filters. -/
def qHead : String :=
  "\n    query ($page: Int, $perPage: Int) \x7b\n      Page(page: $page, perPage: $perPage) \x7b\n        media("

/-- The query template text after the interpolated sort criterion. -/
def qTail : String :=
  ") \x7b\n          id\n          title \x7b\n            romaji\n          \x7d\n          averageScore\n        \x7d\n      \x7d\n    \x7d\n    "

/-- `build_query`: the full GraphQL query document. -/
def build_query (media_type sort_criteria : String)
    (media_status country genre : Option String) : String :=
  qHead ++ query_filters media_type media_status country genre
    ++ ", sort: " ++ sort_criteria ++ qTail

/-- The request body sent by `get_top_media`: the query document plus the
`variables` dict (`page`, `perPage`). -/
structure RequestData where
  query : String
  page : Nat
  perPage : Nat

/-- `j[k]` on a decoded JSON value: `KeyError` when the key is absent from a
dict, `TypeError` when subscripting a non-dict. -/
def Json.get (j : Json) (k : String) : Except String Json :=
  match j with
  | .obj fields =>
    match fields.find? (fun kv => kv.1 == k) with
    | some kv => .ok kv.2
    | none => .error ("KeyError: " ++ k)
  | _ => .error "TypeError"

/-- `for item in j`: iterating a decoded JSON value, `TypeError` unless it is
a list. -/
def Json.items (j : Json) : Except String (List Json) :=
  match j with
  | .arr elems => .ok elems
  | _ => .error "TypeError"

/-- `data["data"]["Page"]["media"]` where `data` is what
`post_graphql_request` returned: subscripting the `None` produced by a caught
transport failure raises `TypeError`; missing keys raise `KeyError`. -/
def extractItems (response : Option Json) : Except String (List Json) :=
  match response with
  | none => .error "TypeError"
  | some d => do
    let dataV ← d.get "data"
    let pageV ← dataV.get "Page"
    let mediaV ← pageV.get "media"
    mediaV.items

/-- Python dict assignment `d[k] = v`: replace the value of an existing key
in place, otherwise append the new binding. -/
def dictSet (k : Json) (v : Media) : List (Json × Media) → List (Json × Media)
  | [] => [(k, v)]
  | p :: rest => if p.1 = k then (k, v) :: rest else p :: dictSet k v rest

/-- One iteration of the inner loop of `get_top_media`:
`ranked_media[item["id"]] = {"id": ..., "title": ..., "rank": len(ranked_media) + 1}`. -/
def insertItem (ranked : List (Json × Media)) (item : Json) :
    Except String (List (Json × Media)) := do
  let idV ← item.get "id"
  let titleV ← item.get "title"
  let romajiV ← titleV.get "romaji"
  .ok (dictSet idV { id := idV, title := romajiV, rank := ranked.length + 1 } ranked)

/-- Line 148 of `__main__.py`:
`sort_criteria = POPULARITY_SORT if media_status == "NOT_YET_RELEASED" else SCORE_SORT`. -/
def sort_criteria_of (media_status : Option String) : String :=
  if media_status = some "NOT_YET_RELEASED" then POPULARITY_SORT else SCORE_SORT

/-- One iteration of the page loop of `get_top_media`: build the query, post
it, then absorb every returned item into the ranked mapping. -/
def processPage (transport : String → RequestData → Option Json)
    (media_type : String) (media_status country genre : Option String)
    (ranked : List (Json × Media)) (page : Nat) :
    Except String (List (Json × Media)) := do
  let query := build_query media_type (sort_criteria_of media_status)
    media_status country genre
  let items ← extractItems (transport BASE_API_URL ⟨query, page, 50⟩)
  items.foldlM insertItem ranked

/-- `get_top_media`: iterate pages 1 and 2, merging items into the
insertion-ordered mapping keyed by `item["id"]`. -/
def get_top_media (transport : String → RequestData → Option Json)
    (media_type : String) (media_status country genre : Option String) :
    Except String (List (Json × Media)) :=
  [1, 2].foldlM (processPage transport media_type media_status country genre) []

/-- `str(value)` applied by the csv writer to a stored cell value (only
numbers and strings reach the writer in runs of this program). -/
def csvCell : Json → String
  | .num n => toString n
  | .str s => s
  | .obj _ => ""
  | .arr _ => ""

/-- csv QUOTE_MINIMAL field quoting: quote and double embedded quotes when
the field holds a delimiter, quote or line-terminator character. -/
def csvQuote (s : String) : String :=
  if s.data.contains ',' || s.data.contains '\x22' || s.data.contains '\n'
      || s.data.contains '\r' then
    String.mk ('\x22' ::
      (s.data.flatMap (fun c => if c = '\x22' then ['\x22', '\x22'] else [c])) ++ ['\x22'])
  else s

/-- One data row written by `csv.DictWriter` for one `Media` record. -/
def csvRow (m : Media) : String :=
  strJoin "," [csvQuote (csvCell m.id), csvQuote (csvCell m.title),
    csvQuote (toString m.rank)]

/-- The lines of one category's csv file: the header written by
`writeheader()` followed by one row per record, in mapping order
(`media_list.values()`). -/
def csvLines (media_list : List (Json × Media)) : List String :=
  "id,title,rank" :: media_list.map (fun p => csvRow p.2)

/-- `new_csv`: one `(file name, lines)` pair per category,
`csv_name = f"{rank_type}.csv"`. -/
def new_csv (rankings : List (String × List (Json × Media))) :
    List (String × List String) :=
  rankings.map (fun kv => (kv.1 ++ ".csv", csvLines kv.2))

/-- A well-shaped media item of the documented response shape. -/
def mkItem (i : Int) (t : String) : Json :=
  .obj [("id", .num i), ("title", .obj [("romaji", .str t)]),
    ("averageScore", .num 0)]

/-- A well-shaped page response wrapping the given items. -/
def mkPage (items : List (Int × String)) : Json :=
  .obj [("data", .obj [("Page", .obj
    [("media", .arr (items.map (fun it => mkItem it.1 it.2)))])])]

/-- A transport stub: entry `p - 1` of `ps` gives page `p`'s outcome, `none`
standing for a caught transport failure (the Python function returning
`None`), `some items` for an HTTP-successful well-shaped response. -/
def transportOf (ps : List (Option (List (Int × String)))) :
    String → RequestData → Option Json :=
  fun _ rd =>
    match ps.get? (rd.page - 1) with
    | some (some items) => some (mkPage items)
    | _ => none

/-- Pure model of one absorbed well-shaped item. -/
def absorb (d : List (Json × Media)) (it : Int × String) : List (Json × Media) :=
  dictSet (.num it.1) { id := .num it.1, title := .str it.2, rank := d.length + 1 } d

/-- Pure model of absorbing a list of well-shaped items in order. -/
def absorbAll (d : List (Json × Media)) (items : List (Int × String)) :
    List (Json × Media) :=
  items.foldl absorb d

/-- The mapping a run produced, or `[]` when the run aborted. -/
def okRows (r : Except String (List (Json × Media))) : List (Json × Media) :=
  match r with
  | .ok d => d
  | .error _ => []

/-- The rank column of a category mapping, in mapping order. -/
def rankColumn (d : List (Json × Media)) : List Nat :=
  d.map (fun p => p.2.rank)

/-! ### Query-builder lemmas -/

theorem emitted_filters_eq (mt : String) (st co ge : Option String) :
    emitted_filters mt st co ge =
      ["type: " ++ mt]
        ++ (match st with | some s => ["status: " ++ s] | none => [])
        ++ (match co with | some c => ["countryOfOrigin: " ++ c] | none => [])
        ++ (match ge with
            | some g => if g = "" then [] else ["genre: \x22" ++ g ++ "\x22"]
            | none => []) := by
  cases st <;> cases co <;> cases ge <;>
    first
      | rfl
      | (rename_i g
         by_cases hg : g = "" <;>
           simp only [emitted_filters, query_parts, List.filterMap, hg,
             if_true, if_false, reduceIte] <;> rfl)

/-- The number of quote characters in a string. -/
def quoteCount (s : String) : Nat := s.data.count '\x22'

theorem quoteCount_append (a b : String) :
    quoteCount (a ++ b) = quoteCount a + quoteCount b := by
  show (a.data ++ b.data).count _ = _
  exact List.count_append ..

theorem quoteCount_strJoin (l : List String) :
    quoteCount (strJoin ", " l) = (l.map quoteCount).sum := by
  induction l with
  | nil => rfl
  | cons a rest ih =>
    cases rest with
    | nil => simp [strJoin]
    | cons b r2 =>
      rw [strJoin, quoteCount_append, quoteCount_append, ih]
      have h2 : quoteCount ", " = 0 := rfl
      simp [h2]

theorem quoteCount_query_filters (mt : String) (st co ge : Option String)
    (hmt : '\x22' ∉ mt.data)
    (hst : ∀ s, st = some s → '\x22' ∉ s.data)
    (hco : ∀ s, co = some s → '\x22' ∉ s.data)
    (hge : ∀ s, ge = some s → '\x22' ∉ s.data) :
    quoteCount (query_filters mt st co ge) =
      (match ge with
       | some g => if g = "" then 0 else 2
       | none => 0) := by
  have hmt0 : quoteCount mt = 0 := List.count_eq_zero_of_not_mem hmt
  rw [query_filters, quoteCount_strJoin, emitted_filters_eq]
  cases st with
  | none =>
    cases co with
    | none =>
      cases ge with
      | none => simp [quoteCount_append, hmt0]; decide
      | some g =>
        have hg0 : quoteCount g = 0 := List.count_eq_zero_of_not_mem (hge g rfl)
        by_cases hg : g = "" <;>
          simp [hg, quoteCount_append, hmt0, hg0] <;> decide
    | some c =>
      have hc0 : quoteCount c = 0 := List.count_eq_zero_of_not_mem (hco c rfl)
      cases ge with
      | none => simp [quoteCount_append, hmt0, hc0]; decide
      | some g =>
        have hg0 : quoteCount g = 0 := List.count_eq_zero_of_not_mem (hge g rfl)
        by_cases hg : g = "" <;>
          simp [hg, quoteCount_append, hmt0, hc0, hg0] <;> decide
  | some s =>
    have hs0 : quoteCount s = 0 := List.count_eq_zero_of_not_mem (hst s rfl)
    cases co with
    | none =>
      cases ge with
      | none => simp [quoteCount_append, hmt0, hs0]; decide
      | some g =>
        have hg0 : quoteCount g = 0 := List.count_eq_zero_of_not_mem (hge g rfl)
        by_cases hg : g = "" <;>
          simp [hg, quoteCount_append, hmt0, hs0, hg0] <;> decide
    | some c =>
      have hc0 : quoteCount c = 0 := List.count_eq_zero_of_not_mem (hco c rfl)
      cases ge with
      | none => simp [quoteCount_append, hmt0, hs0, hc0]; decide
      | some g =>
        have hg0 : quoteCount g = 0 := List.count_eq_zero_of_not_mem (hge g rfl)
        by_cases hg : g = "" <;>
          simp [hg, quoteCount_append, hmt0, hs0, hc0, hg0] <;> decide

/-! ### Claims about the query builder -/

/-- C4: the sort criterion used in the built query is a pure function of
`media_status` alone: for every `media_type`, `country` and `genre`, status
`"NOT_YET_RELEASED"` selects `POPULARITY_DESC` and every other status
(including `None`) selects `SCORE_DESC`; `processPage` posts exactly the
query built with `sort_criteria_of media_status`. -/
theorem C4_sort_pure_function_of_status (mt : String) (st co ge : Option String) :
    (st = some "NOT_YET_RELEASED" → sort_criteria_of st = "POPULARITY_DESC") ∧
    (st ≠ some "NOT_YET_RELEASED" → sort_criteria_of st = "SCORE_DESC") ∧
    (∀ (transport : String → RequestData → Option Json)
       (d : List (Json × Media)) (page : Nat),
      processPage transport mt st co ge d page =
        (extractItems (transport BASE_API_URL
          ⟨build_query mt (sort_criteria_of st) st co ge, page, 50⟩)).bind
          (fun items => items.foldlM insertItem d)) := by
  refine ⟨fun h => ?_, fun h => ?_, fun transport d page => rfl⟩
  · simp [sort_criteria_of, h, POPULARITY_SORT]
  · simp [sort_criteria_of, h, SCORE_SORT]

theorem C4_witness :
    ((some "NOT_YET_RELEASED" : Option String) = some "NOT_YET_RELEASED" ∧
      sort_criteria_of (some "NOT_YET_RELEASED") = "POPULARITY_DESC") ∧
    ((some "RELEASING" : Option String) ≠ some "NOT_YET_RELEASED" ∧
      sort_criteria_of (some "RELEASING") = "SCORE_DESC") ∧
    ((none : Option String) ≠ some "NOT_YET_RELEASED" ∧
      sort_criteria_of none = "SCORE_DESC") :=
  ⟨⟨rfl, (C4_sort_pure_function_of_status "ANIME" (some "NOT_YET_RELEASED")
      none none).1 rfl⟩,
   ⟨by decide, (C4_sort_pure_function_of_status "ANIME" (some "RELEASING")
      none none).2.1 (by decide)⟩,
   ⟨by decide, (C4_sort_pure_function_of_status "ANIME" none
      none none).2.1 (by decide)⟩⟩

/-- C5: quote-free filter inputs produce a query whose only quote characters
are the two the builder wraps around a truthy genre: the quote count of the
whole constructed query is 2 when `genre` is present and non-empty, else 0. -/
theorem C5_only_genre_quoted (mt sc : String) (st co ge : Option String)
    (hmt : '\x22' ∉ mt.data) (hsc : '\x22' ∉ sc.data)
    (hst : ∀ s, st = some s → '\x22' ∉ s.data)
    (hco : ∀ s, co = some s → '\x22' ∉ s.data)
    (hge : ∀ s, ge = some s → '\x22' ∉ s.data) :
    quoteCount (build_query mt sc st co ge) =
      (match ge with
       | some g => if g = "" then 0 else 2
       | none => 0) := by
  have hsc0 : quoteCount sc = 0 := List.count_eq_zero_of_not_mem hsc
  have hq : quoteCount qHead = 0 := rfl
  have ht : quoteCount qTail = 0 := rfl
  have hs : quoteCount ", sort: " = 0 := rfl
  rw [build_query, quoteCount_append, quoteCount_append, quoteCount_append,
    quoteCount_append, hq, ht, hs, hsc0,
    quoteCount_query_filters mt st co ge hmt hst hco hge]
  omega

theorem C5_witness :
    ('\x22' ∉ "ANIME".data) ∧ ('\x22' ∉ "SCORE_DESC".data) ∧
    ('\x22' ∉ "hentai".data) ∧
    quoteCount (build_query "ANIME" "SCORE_DESC" none none (some "hentai")) = 2 ∧
    quoteCount (build_query "ANIME" "SCORE_DESC" none none none) = 0 :=
  ⟨by decide, by decide, by decide,
   C5_only_genre_quoted "ANIME" "SCORE_DESC" none none (some "hentai")
     (by decide) (by decide) (fun s h => Option.noConfusion h)
     (fun s h => Option.noConfusion h)
     (fun s h => by injection h with h2; rw [← h2]; decide),
   C5_only_genre_quoted "ANIME" "SCORE_DESC" none none none
     (by decide) (by decide) (fun s h => Option.noConfusion h)
     (fun s h => Option.noConfusion h) (fun s h => Option.noConfusion h)⟩

/-- C6 counterexample: the genre argument can be provided (non-`None`, as the
empty string) and yet no genre filter appears in the query at all — the
constructed query is identical to the one built with `genre = None`. -/
theorem C6_counterexample_empty_genre_provided_but_omitted :
    emitted_filters "ANIME" none none (some "") = ["type: ANIME"] ∧
    build_query "ANIME" "SCORE_DESC" none none (some "") =
      build_query "ANIME" "SCORE_DESC" none none none ∧
    (some "" : Option String) ≠ none := by
  refine ⟨rfl, rfl, by decide⟩

/-- C6 (amended): filters appear in the fixed order `type`, `status`,
`countryOfOrigin`, `genre`; a `None` argument is omitted entirely; each
non-`None` argument appears exactly once — except `genre`, which is
truthiness-tested, so an empty-string genre is also omitted.  The query is
the head template, the joined filters, the sort criterion, and the tail. -/
theorem C6_filter_order_and_omission (mt : String) (st co ge : Option String) :
    emitted_filters mt st co ge =
      ["type: " ++ mt]
        ++ (match st with | some s => ["status: " ++ s] | none => [])
        ++ (match co with | some c => ["countryOfOrigin: " ++ c] | none => [])
        ++ (match ge with
            | some g => if g = "" then [] else ["genre: \x22" ++ g ++ "\x22"]
            | none => []) ∧
    ∀ sc, build_query mt sc st co ge =
      qHead ++ strJoin ", " (emitted_filters mt st co ge)
        ++ ", sort: " ++ sc ++ qTail :=
  ⟨emitted_filters_eq mt st co ge, fun _ => rfl⟩

/-- C10: `build_query` tests genre by truthiness but status/country by
`None`-ness: an empty-string genre is omitted entirely (the query equals the
genre-absent query), while an empty-string status or country is emitted as a
filter with an empty value (`"status: "`, `"countryOfOrigin: "`). -/
theorem C10_truthiness_for_genre_noneness_for_others
    (mt sc : String) (st co ge : Option String) :
    build_query mt sc st co (some "") = build_query mt sc st co none ∧
    "status: " ∈ emitted_filters mt (some "") co ge ∧
    "countryOfOrigin: " ∈ emitted_filters mt st (some "") ge := by
  have h1 : ("status: " ++ "" : String) = "status: " := rfl
  have h2 : ("countryOfOrigin: " ++ "" : String) = "countryOfOrigin: " := rfl
  refine ⟨rfl, ?_, ?_⟩
  · rw [emitted_filters_eq]
    simp [h1]
  · rw [emitted_filters_eq]
    simp [h2]

/-! ### Ranking-collector lemmas -/

theorem insertItem_mkItem (d : List (Json × Media)) (i : Int) (t : String) :
    insertItem d (mkItem i t) = .ok (absorb d (i, t)) := rfl

theorem extractItems_mkPage (items : List (Int × String)) :
    extractItems (some (mkPage items)) =
      .ok (items.map (fun it => mkItem it.1 it.2)) := rfl

theorem foldlM_insertItem (its : List (Int × String)) :
    ∀ d, (its.map (fun it => mkItem it.1 it.2)).foldlM insertItem d =
      .ok (absorbAll d its) := by
  induction its with
  | nil => intro d; rfl
  | cons a rest ih =>
    intro d
    rw [List.map_cons, List.foldlM_cons, insertItem_mkItem]
    exact ih (absorb d a)

theorem foldlM_two_pages (g : List (Json × Media) → Nat →
      Except String (List (Json × Media)))
    (a b : Nat) (d1 d2 : List (Json × Media))
    (h1 : g [] a = .ok d1) (h2 : g d1 b = .ok d2) :
    [a, b].foldlM g [] = .ok d2 := by
  rw [List.foldlM_cons, h1]
  show [b].foldlM g d1 = Except.ok d2
  rw [List.foldlM_cons, h2]
  rfl

theorem run_two_pages (mt : String) (st co ge : Option String)
    (p1 p2 : List (Int × String)) :
    get_top_media (transportOf [some p1, some p2]) mt st co ge =
      .ok (absorbAll [] (p1 ++ p2)) := by
  have e1 : processPage (transportOf [some p1, some p2]) mt st co ge [] 1 =
      .ok (absorbAll [] p1) := foldlM_insertItem p1 []
  have e2 : processPage (transportOf [some p1, some p2]) mt st co ge
      (absorbAll [] p1) 2 = .ok (absorbAll (absorbAll [] p1) p2) :=
    foldlM_insertItem p2 (absorbAll [] p1)
  have e3 : absorbAll (absorbAll [] p1) p2 = absorbAll [] (p1 ++ p2) :=
    (List.foldl_append ..).symm
  rw [get_top_media]
  rw [foldlM_two_pages _ 1 2 _ _ e1 e2, e3]

/-- The effect of one dict assignment on the key list. -/
def addKey (ks : List Json) (k : Json) : List Json :=
  if k ∈ ks then ks else ks ++ [k]

/-- The effect of a sequence of dict assignments on the key list. -/
def addKeys (ks : List Json) (l : List Json) : List Json :=
  l.foldl addKey ks

theorem dictSet_keys (k : Json) (v : Media) (d : List (Json × Media)) :
    (dictSet k v d).map Prod.fst = addKey (d.map Prod.fst) k := by
  induction d with
  | nil => simp [dictSet, addKey]
  | cons p rest ih =>
    by_cases hp : p.1 = k
    · rw [dictSet, if_pos hp, addKey, if_pos (by simp [hp.symm])]
      simp [hp]
    · rw [dictSet, if_neg hp, List.map_cons, ih, List.map_cons, addKey, addKey]
      by_cases hk : k ∈ rest.map Prod.fst
      · rw [if_pos hk, if_pos (by simp [hk])]
      · rw [if_neg hk, if_neg (by simp [hk]; exact fun he => hp he.symm)]
        rfl

theorem absorbAll_keys (its : List (Int × String)) :
    ∀ d : List (Json × Media),
      (absorbAll d its).map Prod.fst =
        addKeys (d.map Prod.fst) (its.map (fun p => Json.num p.1)) := by
  induction its with
  | nil => intro d; rfl
  | cons a rest ih =>
    intro d
    show (absorbAll (absorb d a) rest).map Prod.fst = _
    rw [ih (absorb d a),
      show (absorb d a).map Prod.fst = addKey (d.map Prod.fst) (Json.num a.1) from
        dictSet_keys ..]
    rfl

theorem mem_addKeys (x : Json) (l : List Json) :
    ∀ ks : List Json, x ∈ addKeys ks l ↔ x ∈ ks ∨ x ∈ l := by
  induction l with
  | nil => intro ks; simp [addKeys]
  | cons k rest ih =>
    intro ks
    show x ∈ addKeys (addKey ks k) rest ↔ _
    rw [ih]
    by_cases hk : k ∈ ks <;> simp [addKey, hk] <;> aesop

theorem addKeys_nodup (l : List Json) :
    ∀ ks : List Json, ks.Nodup → (addKeys ks l).Nodup := by
  induction l with
  | nil => intro ks h; exact h
  | cons k rest ih =>
    intro ks h
    apply ih
    by_cases hk : k ∈ ks
    · simpa [addKey, hk]
    · rw [addKey, if_neg hk]
      simp [List.nodup_append, h, hk]

theorem length_addKeys_nil (l : List Json) :
    (addKeys [] l).length = l.dedup.length := by
  have h1 : (addKeys [] l).Nodup := addKeys_nodup l [] (by simp)
  have h2 : (addKeys [] l).toFinset = l.toFinset := by
    ext x
    simp [List.mem_toFinset, mem_addKeys]
  calc (addKeys [] l).length = (addKeys [] l).toFinset.card :=
        (List.toFinset_card_of_nodup h1).symm
    _ = l.toFinset.card := by rw [h2]
    _ = l.dedup.length := List.card_toFinset l

theorem absorbAll_length (its : List (Int × String)) :
    (absorbAll [] its).length = ((its.map Prod.fst).dedup).length := by
  have h0 : (absorbAll [] its).length =
      ((absorbAll [] its).map Prod.fst).length := (List.length_map ..).symm
  have hinj : Function.Injective Json.num := fun a b h => Json.num.inj h
  have hm : its.map (fun p => Json.num p.1) = (its.map Prod.fst).map Json.num := by
    rw [List.map_map]; rfl
  rw [h0, absorbAll_keys its []]
  show (addKeys ([] : List Json) (its.map fun p => Json.num p.1)).length = _
  rw [length_addKeys_nil, hm, List.dedup_map_of_injective hinj, List.length_map]

theorem dictSet_of_not_mem (k : Json) (v : Media) :
    ∀ d : List (Json × Media), k ∉ d.map Prod.fst → dictSet k v d = d ++ [(k, v)] := by
  intro d
  induction d with
  | nil => intro _; rfl
  | cons p rest ih =>
    intro h
    rw [List.map_cons, List.mem_cons] at h
    push_neg at h
    rw [dictSet, if_neg (fun he => h.1 he.symm), ih h.2]
    rfl

theorem absorbAll_ranks_of_nodup (its : List (Int × String)) :
    ∀ d : List (Json × Media),
      (its.map Prod.fst).Nodup →
      (∀ p ∈ its, Json.num p.1 ∉ d.map Prod.fst) →
      (absorbAll d its).map Prod.fst =
        d.map Prod.fst ++ its.map (fun p => Json.num p.1) ∧
      rankColumn (absorbAll d its) =
        rankColumn d ++ List.range' (d.length + 1) its.length := by
  induction its with
  | nil => intro d _ _; simp [absorbAll, rankColumn]
  | cons a rest ih =>
    intro d hnd hfresh
    have hfa : Json.num a.1 ∉ d.map Prod.fst := hfresh a (by simp)
    have habs : absorb d a =
        d ++ [(Json.num a.1, ⟨Json.num a.1, Json.str a.2, d.length + 1⟩)] :=
      dictSet_of_not_mem _ _ d hfa
    rw [List.map_cons, List.nodup_cons] at hnd
    have hrest : ∀ p ∈ rest, Json.num p.1 ∉ (absorb d a).map Prod.fst := by
      intro p hp
      rw [habs, List.map_append, List.mem_append]
      push_neg
      refine ⟨hfresh p (by simp [hp]), ?_⟩
      have hpa : p.1 ≠ a.1 := by
        intro he
        exact hnd.1 (he ▸ List.mem_map_of_mem Prod.fst hp)
      simp [hpa]
    obtain ⟨hk, hr⟩ := ih (absorb d a) hnd.2 hrest
    constructor
    · show (absorbAll (absorb d a) rest).map Prod.fst = _
      rw [hk, habs, List.map_append]
      simp
    · show rankColumn (absorbAll (absorb d a) rest) = _
      rw [hr]
      have hlen : (absorb d a).length = d.length + 1 := by
        rw [habs, List.length_append]
        rfl
      have hrk : rankColumn (absorb d a) = rankColumn d ++ [d.length + 1] := by
        rw [rankColumn, habs, List.map_append]
        rfl
      rw [hrk, hlen, List.length_cons, List.range'_succ, List.append_assoc]
      rfl

theorem sorted_le_range' (s n : Nat) :
    List.Sorted (fun a b => a ≤ b) (List.range' s n) := by
  induction n generalizing s with
  | zero => simp
  | succ m ih =>
    rw [List.range'_succ, List.sorted_cons]
    refine ⟨?_, ih (s + 1)⟩
    intro b hb
    obtain ⟨i, hi, rfl⟩ := List.mem_range'.mp hb
    omega

/-! ### Claims about the ranking collector and exporter -/

/-- C1 (recorded behavior at the failing input): when the transport fails on
page 2 (the caught exception makes `post_graphql_request` return `None`),
`get_top_media` does not return page 1's partial result — subscripting the
`None` raises, aborting the category. -/
theorem C1_transport_failure_aborts_run :
    get_top_media (transportOf [some [(1, "A")], none]) "ANIME" none none none =
      .error "TypeError" ∧
    okRows (get_top_media (transportOf [some [(1, "A")], none])
      "ANIME" none none none) = [] := ⟨rfl, rfl⟩

/-- C2 counterexample: the remote returns id 1 on page 1 and page 2; the
result has exactly one row for id 1, but its rank is 2 — the rank assigned
at the later occurrence — not the earliest rank 1 the claim requires. -/
theorem C2_counterexample_latest_rank_kept :
    okRows (get_top_media (transportOf [some [(1, "A")], some [(1, "A")]])
        "ANIME" none none none) =
      [(Json.num 1, ⟨Json.num 1, Json.str "A", 2⟩)] ∧
    rankColumn (okRows (get_top_media (transportOf [some [(1, "A")], some [(1, "A")]])
        "ANIME" none none none)) ≠ [1] := by
  refine ⟨rfl, by decide⟩

theorem filter_key_nil (k : Json) :
    ∀ d : List (Json × Media), k ∉ d.map Prod.fst →
      d.filter (fun p => decide (p.1 = k)) = [] := by
  intro d
  induction d with
  | nil => intro _; rfl
  | cons p rest ih =>
    intro h
    rw [List.map_cons, List.mem_cons] at h
    push_neg at h
    have hp : ¬ (p.1 = k) := fun he => h.1 he.symm
    simp [List.filter_cons, hp, ih h.2]

theorem dictSet_filter_self (k : Json) (v : Media) :
    ∀ d : List (Json × Media), (d.map Prod.fst).Nodup →
      (dictSet k v d).filter (fun p => decide (p.1 = k)) = [(k, v)] := by
  intro d
  induction d with
  | nil => intro _; simp [dictSet]
  | cons p rest ih =>
    intro h
    rw [List.map_cons, List.nodup_cons] at h
    by_cases hp : p.1 = k
    · rw [dictSet, if_pos hp]
      have hkr : k ∉ rest.map Prod.fst := hp ▸ h.1
      simp [List.filter_cons, filter_key_nil k rest hkr]
    · rw [dictSet, if_neg hp]
      simp [List.filter_cons, hp, ih h.2]

theorem filter_dictSet_other (k key : Json) (v : Media) (hne : key ≠ k) :
    ∀ d : List (Json × Media),
      (dictSet k v d).filter (fun p => decide (p.1 = key)) =
        d.filter (fun p => decide (p.1 = key)) := by
  have h1 : ¬ (k = key) := fun he => hne he.symm
  intro d
  induction d with
  | nil => simp [dictSet, List.filter_cons, h1]
  | cons p rest ih =>
    by_cases hp : p.1 = k
    · rw [dictSet, if_pos hp]
      have h2 : ¬ (p.1 = key) := fun he => h1 (hp.symm.trans he)
      simp [List.filter_cons, h1, h2]
    · rw [dictSet, if_neg hp]
      simp [List.filter_cons, ih]

theorem filter_absorbAll_not_mem (i : Int) :
    ∀ (items : List (Int × String)) (d : List (Json × Media)),
      i ∉ items.map Prod.fst →
      (absorbAll d items).filter (fun p => decide (p.1 = Json.num i)) =
        d.filter (fun p => decide (p.1 = Json.num i)) := by
  intro items
  induction items with
  | nil => intro d _; rfl
  | cons a rest ih =>
    intro d h
    rw [List.map_cons, List.mem_cons] at h
    push_neg at h
    show (absorbAll (absorb d a) rest).filter _ = _
    rw [ih (absorb d a) h.2]
    exact filter_dictSet_other (Json.num a.1) (Json.num i) _
      (fun he => h.1 (Json.num.inj he)) d

theorem absorbAll_keys_nodup (items : List (Int × String)) :
    ((absorbAll [] items).map Prod.fst).Nodup := by
  rw [absorbAll_keys items []]
  exact addKeys_nodup _ _ (by simp)

/-- C2 (amended): for every category fetch in which the remote returns the
same media id on two different pages — id `i` appears on page 1 and its last
occurrence is the item `(i, t)` on page 2, with arbitrary items `pre` before
it and `post` after it — the category result and the exported rows contain
exactly one row for that id, and that row carries the title of the latest
occurrence and the rank assigned at the overwrite: the mapping size just
before absorbing `(i, t)` plus 1, not the earliest-assigned rank. -/
theorem C2_duplicate_id_single_row_latest_rank
    (mt : String) (st co ge : Option String)
    (p1 pre post : List (Int × String)) (i : Int) (t : String)
    (hdup : i ∈ p1.map Prod.fst) (hlast : i ∉ post.map Prod.fst) :
    ∃ d, get_top_media (transportOf [some p1, some (pre ++ [(i, t)] ++ post)])
        mt st co ge = .ok d ∧
      d.filter (fun p => decide (p.1 = Json.num i)) =
        [(Json.num i, ⟨Json.num i, Json.str t,
          (absorbAll [] (p1 ++ pre)).length + 1⟩)] ∧
      csvLines d = "id,title,rank" :: d.map (fun p => csvRow p.2) ∧
      (d.filter (fun p => decide (p.1 = Json.num i))).map (fun p => csvRow p.2) =
        [csvRow ⟨Json.num i, Json.str t,
          (absorbAll [] (p1 ++ pre)).length + 1⟩] := by
  have hassoc : p1 ++ (pre ++ [(i, t)] ++ post) = ((p1 ++ pre) ++ [(i, t)]) ++ post := by
    simp [List.append_assoc]
  have hsplit : absorbAll [] (p1 ++ (pre ++ [(i, t)] ++ post)) =
      absorbAll (absorb (absorbAll [] (p1 ++ pre)) (i, t)) post := by
    rw [hassoc]
    show List.foldl absorb [] _ = _
    rw [List.foldl_append, List.foldl_append]
    rfl
  have hfil : (absorbAll [] (p1 ++ (pre ++ [(i, t)] ++ post))).filter
      (fun p => decide (p.1 = Json.num i)) =
      [(Json.num i, ⟨Json.num i, Json.str t,
        (absorbAll [] (p1 ++ pre)).length + 1⟩)] := by
    rw [hsplit, filter_absorbAll_not_mem i post _ hlast]
    exact dictSet_filter_self _ _ _ (absorbAll_keys_nodup (p1 ++ pre))
  refine ⟨_, run_two_pages mt st co ge p1 _, hfil, rfl, ?_⟩
  rw [hfil]
  rfl

theorem C2_witness :
    ((1 : Int) ∈ ([((1 : Int), "A"), ((2 : Int), "B")].map Prod.fst)) ∧
    ((1 : Int) ∉ (([] : List (Int × String)).map Prod.fst)) ∧
    (∃ d, get_top_media (transportOf [some [((1 : Int), "A"), ((2 : Int), "B")],
        some ([] ++ [(((1 : Int)), "C")] ++ [])]) "ANIME" none none none = .ok d ∧
      d.filter (fun p => decide (p.1 = Json.num 1)) =
        [(Json.num 1, ⟨Json.num 1, Json.str "C",
          (absorbAll [] ([((1 : Int), "A"), ((2 : Int), "B")] ++ [])).length + 1⟩)] ∧
      csvLines d = "id,title,rank" :: d.map (fun p => csvRow p.2) ∧
      (d.filter (fun p => decide (p.1 = Json.num 1))).map (fun p => csvRow p.2) =
        [csvRow ⟨Json.num 1, Json.str "C",
          (absorbAll [] ([((1 : Int), "A"), ((2 : Int), "B")] ++ [])).length + 1⟩]) :=
  ⟨by decide, by decide,
   C2_duplicate_id_single_row_latest_rank "ANIME" none none none
     [((1 : Int), "A"), ((2 : Int), "B")] [] [] 1 "C" (by decide) (by decide)⟩

/-- C3 counterexample: with id 1 on both pages (pages `[(1,A),(2,B)]` then
`[(1,A)]`), the two records carry ranks `[3, 2]` — neither contiguous from 1
nor duplicate-free up to `n = 2`. -/
theorem C3_counterexample_duplicate_breaks_contiguity :
    rankColumn (okRows (get_top_media
        (transportOf [some [(1, "A"), (2, "B")], some [(1, "A")]])
        "ANIME" none none none)) = [3, 2] ∧
    [3, 2] ≠ List.range' 1 2 := ⟨rfl, by decide⟩

/-- C3 (amended): when the ids returned across the fetched pages are all
distinct, the category result's rank column is exactly `1, 2, ..., n` in
order (`n` the number of records), and the exported lines are the header
followed by one row per record. -/
theorem C3_ranks_contiguous_of_distinct_ids (mt : String) (st co ge : Option String)
    (p1 p2 : List (Int × String)) (h : ((p1 ++ p2).map Prod.fst).Nodup) :
    ∃ d, get_top_media (transportOf [some p1, some p2]) mt st co ge = .ok d ∧
      rankColumn d = List.range' 1 d.length ∧
      csvLines d = "id,title,rank" :: d.map (fun p => csvRow p.2) := by
  refine ⟨_, run_two_pages mt st co ge p1 p2, ?_, rfl⟩
  obtain ⟨hk, hr⟩ := absorbAll_ranks_of_nodup (p1 ++ p2) [] h (by simp)
  have hlen : (absorbAll [] (p1 ++ p2)).length = (p1 ++ p2).length := by
    have h2 := congrArg List.length hk
    simpa using h2
  rw [hr, hlen]
  simp [rankColumn]

theorem C3_witness :
    ((([((1 : Int), "A")] ++ [((2 : Int), "B")]).map Prod.fst).Nodup) ∧
    (∃ d, get_top_media (transportOf [some [((1 : Int), "A")], some [((2 : Int), "B")]])
        "ANIME" none none none = .ok d ∧
      rankColumn d = List.range' 1 d.length ∧
      csvLines d = "id,title,rank" :: d.map (fun p => csvRow p.2)) :=
  ⟨by decide,
   C3_ranks_contiguous_of_distinct_ids "ANIME" none none none _ _ (by decide)⟩

/-- C7: for every category fetch over two successful pages, the exported file
has one header line plus exactly one data row per distinct id returned across
the pages — duplicates across pages collapse to a single row. -/
theorem C7_row_count_equals_distinct_ids (mt : String) (st co ge : Option String)
    (p1 p2 : List (Int × String)) :
    ∃ d, get_top_media (transportOf [some p1, some p2]) mt st co ge = .ok d ∧
      (csvLines d).length = (((p1 ++ p2).map Prod.fst).dedup).length + 1 := by
  refine ⟨_, run_two_pages mt st co ge p1 p2, ?_⟩
  show ("id,title,rank" :: (absorbAll [] (p1 ++ p2)).map _).length = _
  rw [List.length_cons, List.length_map, absorbAll_length]

/-- C8: a lookup failure on an HTTP-successful but malformed response (missing
`data`/`Page`/`media`/`title`/`romaji` key) is not caught anywhere in
`get_top_media`: whichever page it strikes, the whole call returns that error
and never an `ok` result with the page treated as empty. -/
theorem C8_shape_failure_propagates (transport : String → RequestData → Option Json)
    (mt : String) (st co ge : Option String) (e : String) :
    (processPage transport mt st co ge [] 1 = .error e →
      get_top_media transport mt st co ge = .error e) ∧
    (∀ d, processPage transport mt st co ge [] 1 = .ok d →
      processPage transport mt st co ge d 2 = .error e →
      get_top_media transport mt st co ge = .error e) := by
  constructor
  · intro h
    rw [get_top_media, List.foldlM_cons, h]
    rfl
  · intro d h1 h2
    rw [get_top_media, List.foldlM_cons, h1]
    show List.foldlM (processPage transport mt st co ge) d [2] = Except.error e
    rw [List.foldlM_cons, h2]
    rfl

/-- A transport whose page-2 response is HTTP-successful but missing the
`Page` key under `data`. -/
def c8transport : String → RequestData → Option Json :=
  fun _ rd =>
    if rd.page = 1 then some (mkPage [(1, "A")])
    else some (.obj [("data", .obj [])])

theorem C8_witness :
    processPage c8transport "ANIME" none none none [] 1 =
      .ok [(Json.num 1, ⟨Json.num 1, Json.str "A", 1⟩)] ∧
    processPage c8transport "ANIME" none none none
      [(Json.num 1, ⟨Json.num 1, Json.str "A", 1⟩)] 2 = .error "KeyError: Page" ∧
    get_top_media c8transport "ANIME" none none none = .error "KeyError: Page" :=
  ⟨rfl, rfl,
   (C8_shape_failure_propagates c8transport "ANIME" none none none
     "KeyError: Page").2 _ rfl rfl⟩

/-- C9 counterexample: with a duplicate id across pages the mapping order (=
row order in the file) is not ascending rank order: the file rows read
`1,C,3` then `2,B,2`. -/
theorem C9_counterexample_rows_not_rank_sorted :
    new_csv [("All Anime", okRows (get_top_media
        (transportOf [some [(1, "A"), (2, "B")], some [(1, "C")]])
        "ANIME" none none none))] =
      [("All Anime.csv", ["id,title,rank", "1,C,3", "2,B,2"])] ∧
    ¬ List.Sorted (fun a b => a ≤ b)
      (rankColumn (okRows (get_top_media
        (transportOf [some [(1, "A"), (2, "B")], some [(1, "C")]])
        "ANIME" none none none))) := by
  refine ⟨rfl, ?_⟩
  have he : rankColumn (okRows (get_top_media
      (transportOf [some [(1, "A"), (2, "B")], some [(1, "C")]])
      "ANIME" none none none)) = [3, 2] := rfl
  rw [he]
  decide

/-- C9 (amended): `new_csv` writes `<category>.csv` as the header
`id,title,rank` followed by the data rows in mapping insertion order; when
the returned ids are all distinct that order is ascending rank order; and the
two-page scenario (page 1 = `[(1,A)]`, page 2 = `[(2,B)]`) yields the file
`All Anime.csv` with rows `1,A,1` then `2,B,2`.  (With duplicate ids across
pages, insertion order can disagree with ascending rank order.) -/
theorem C9_export_format_and_row_order :
    (∀ (cat mt : String) (st co ge : Option String)
       (ps : List (Option (List (Int × String)))),
      new_csv [(cat, okRows (get_top_media (transportOf ps) mt st co ge))] =
        [(cat ++ ".csv", "id,title,rank" ::
          (okRows (get_top_media (transportOf ps) mt st co ge)).map
            (fun p => csvRow p.2))]) ∧
    (∀ (mt : String) (st co ge : Option String) (p1 p2 : List (Int × String)),
      ((p1 ++ p2).map Prod.fst).Nodup →
      List.Sorted (fun a b => a ≤ b)
        (rankColumn (okRows (get_top_media (transportOf [some p1, some p2])
          mt st co ge)))) ∧
    new_csv [("All Anime", okRows (get_top_media
        (transportOf [some [(1, "A")], some [(2, "B")]]) "ANIME" none none none))] =
      [("All Anime.csv", ["id,title,rank", "1,A,1", "2,B,2"])] := by
  refine ⟨fun cat mt st co ge ps => rfl, ?_, rfl⟩
  intro mt st co ge p1 p2 h
  have hrun : okRows (get_top_media (transportOf [some p1, some p2]) mt st co ge) =
      absorbAll [] (p1 ++ p2) := by
    rw [run_two_pages]
    rfl
  rw [hrun]
  obtain ⟨hk, hr⟩ := absorbAll_ranks_of_nodup (p1 ++ p2) [] h (by simp)
  rw [hr]
  simpa using sorted_le_range' 1 (p1 ++ p2).length

theorem C9_witness :
    ((([((1 : Int), "A")] ++ [((2 : Int), "B")]).map Prod.fst).Nodup) ∧
    List.Sorted (fun a b => a ≤ b)
      (rankColumn (okRows (get_top_media
        (transportOf [some [((1 : Int), "A")], some [((2 : Int), "B")]])
        "ANIME" none none none))) :=
  ⟨by decide,
   C9_export_format_and_row_order.2.1 "ANIME" none none none _ _ (by decide)⟩
